import Mathlib

/-!
Verification of the ng-drive sync orchestration core.

Shallow embedding of the Go sources:
* `desktop/backend/delta/types.go`, `watcher.go` — change-notify watchers
* the delta service (`DeltaService`) and the `Sync` delta decision logic
* `desktop/backend/utils/rclone_progress.go` — progress composition,
  progress teardown, the auth service (unlock rate limiting, password
  change) and the AES-256-GCM encryption envelope.

Machine integers are modelled as `Nat`/`Int`, byte strings as `List Nat`,
timestamps as `Int` seconds, and fallible code as `Option`/`Except`.
External library calls (rclone's filter compiler, Go's `crypto/cipher`
AEAD) are either assumed total or passed in as parameters constrained by
their documented contracts.
-/

namespace NgDrive

/-! ## Delta engine data model (desktop/backend/delta/types.go) -/

/-- `fs.EntryType`: a changed entry is a directory or an object (file). -/
inductive EntryType
  | directory
  | object
deriving DecidableEq, Repr

/-- `ChangeType` from types.go: `ChangeModified` (add/modify) or `ChangeDeleted`. -/
inductive ChangeType
  | modified
  | deleted
deriving DecidableEq, Repr

/-- `FileChange` from types.go. `detectedAt` is a timestamp in seconds. -/
structure FileChange where
  path : String
  entryType : EntryType
  ctype : ChangeType
  detectedAt : Int
deriving DecidableEq, Repr

/-- `ChangeSet` from types.go. -/
structure ChangeSet where
  remoteKey : String
  changes : List FileChange
  hasChanges : Bool
deriving DecidableEq, Repr

/-- `DeltaState` from types.go: persisted per-remote record.
`lastFullSync` is `none` when the column is NULL. -/
structure DeltaState where
  remoteKey : String
  provider : String
  isWatching : Bool
  lastFullSync : Option Int
  deltaCount : Nat
deriving DecidableEq, Repr

/-- `MaxDeltaSyncsBeforeFullSync` from the delta service constants. -/
def maxDeltaSyncsBeforeFullSync : Nat := 50

/-- `MaxTimeBetweenFullSyncs` (24 h), in seconds. -/
def maxTimeBetweenFullSyncs : Int := 24 * 60 * 60

/-- `MaxChangesBeforeFallback` from the delta service constants. -/
def maxChangesBeforeFallback : Nat := 5000

/-! ## Watcher buffer semantics (desktop/backend/delta/watcher.go)

The watcher's mutex-guarded `changes` slice is modelled as a list.  The
three mutating operations are the callback (`notifyCallback` appends),
`DrainChanges` (returns and clears) and `RestoreChanges` (prepends). -/

/-- `Watcher.notifyCallback`: append one change to the buffer. -/
def notifyCallback (c : FileChange) (buf : List FileChange) : List FileChange :=
  buf ++ [c]

/-- `Watcher.DrainChanges`: return the whole buffer and clear it. -/
def drainChanges (buf : List FileChange) : List FileChange × List FileChange :=
  (buf, [])

/-- `Watcher.RestoreChanges`: prepend the restored changes before anything
that accumulated since the drain (`w.changes = append(changes, w.changes...)`).
The early return for an empty argument produces the same buffer. -/
def restoreChanges (cs : List FileChange) (buf : List FileChange) : List FileChange :=
  if cs.isEmpty then buf else cs ++ buf

/-- `Watcher.HasChanges`: whether the buffer is non-empty. -/
def hasChangesBuf (buf : List FileChange) : Bool :=
  decide (0 < buf.length)

/-- One operation applied to a watcher buffer during a period of operation. -/
inductive WatcherOp
  | callback (c : FileChange)
  | drain
  | restore (cs : List FileChange)

/-- Accounting view of a run: the current buffer plus the cumulative lists of
drained, callback-delivered and restored changes. -/
structure WatcherRun where
  buf : List FileChange
  drained : List FileChange
  callbacks : List FileChange
  restored : List FileChange

/-- Apply one watcher operation (per watcher.go). -/
def stepWatcher (s : WatcherRun) : WatcherOp → WatcherRun
  | .callback c =>
      { s with buf := notifyCallback c s.buf, callbacks := s.callbacks ++ [c] }
  | .drain =>
      { s with buf := (drainChanges s.buf).2, drained := s.drained ++ (drainChanges s.buf).1 }
  | .restore cs =>
      { s with buf := restoreChanges cs s.buf, restored := s.restored ++ cs }

/-- Run a sequence of watcher operations from an empty, freshly-started buffer
(`Start` sets `w.changes = nil`). -/
def runWatcher (ops : List WatcherOp) : WatcherRun :=
  ops.foldl stepWatcher ⟨[], [], [], []⟩

/-! ## Delta service (DeltaService) -/

/-- In-memory watcher state visible to the delta service. -/
structure WatcherState where
  running : Bool
  changes : List FileChange
deriving DecidableEq, Repr

/-- The delta service's relevant state: the per-key watcher map and the
persisted store.  `getState key = none` models a query error; `some none`
models "no row"; `some (some st)` a readable record. -/
structure DeltaServiceState where
  watchers : String → Option WatcherState
  getState : String → Option (Option DeltaState)

/-- `DeltaService.ShouldSkipSync` (delta service, lines 84–118). -/
def shouldSkipSync (d : DeltaServiceState) (now : Int) (remoteKey : String) : Bool :=
  match d.watchers remoteKey with
  | none => false
  | some w =>
    if !w.running then false
    else
      match d.getState remoteKey with
      | none => false
      | some none => false
      | some (some st) =>
        if maxDeltaSyncsBeforeFullSync ≤ st.deltaCount then false
        else
          match st.lastFullSync with
          | some t =>
            if maxTimeBetweenFullSyncs < now - t then false
            else !hasChangesBuf w.changes
          | none => !hasChangesBuf w.changes

/-- `DeltaService.GetChanges`: drain the watcher for filter scoping.
Returns `none` when there is no running watcher. -/
def getChanges (d : DeltaServiceState) (remoteKey : String) : Option ChangeSet :=
  match d.watchers remoteKey with
  | none => none
  | some w =>
    if !w.running then none
    else
      let changes := (drainChanges w.changes).1
      if changes.length = 0 then some ⟨remoteKey, [], false⟩
      else some ⟨remoteKey, changes, true⟩

/-! ## Remote key normalisation (`remoteKey` in the Sync file)

Go strings are modelled as `List Char`; `strings.Index(path, ":") != -1`
is colon membership. -/

/-- `remoteKey`: a path containing a colon is its own key, a bare path is
prefixed with `local:`. -/
def remoteKey (path : List Char) : List Char :=
  if ':' ∈ path then path else "local:".toList ++ path

/-! ## Scope filter construction (`applyScopeFilter` in the Sync file)

The Go loop walks the changes, skips paths already seen, appends
`/<p>/**` (directories only) and `/<p>` to the include rules, and finally
appends a catch-all `**` exclude.  The rclone filter compiler
(`filter.NewFilter`) is external and assumed to succeed. -/

/-- The include rules generated by the `applyScopeFilter` loop, given the
set of paths already seen.  Directories contribute `/<p>/**` and then
`/<p>` (the Go code appends `/<p>` unconditionally); objects contribute
`/<p>`. -/
def scopeRules (seen : List String) : List FileChange → List String
  | [] => []
  | c :: rest =>
    if c.path ∈ seen then scopeRules seen rest
    else
      (if c.entryType = .directory
        then ["/" ++ c.path ++ "/**", "/" ++ c.path]
        else ["/" ++ c.path])
      ++ scopeRules (c.path :: seen) rest

/-- Include rules of the scoped filter: the copied base rules followed by
the generated per-path rules. -/
def scopeIncludeRules (baseInclude : List String) (changes : List FileChange) : List String :=
  baseInclude ++ scopeRules [] changes

/-- Exclude rules of the scoped filter: the copied base rules with the
catch-all `**` appended last. -/
def scopeExcludeRules (baseExclude : List String) : List String :=
  baseExclude ++ ["**"]

/-- Outcome of the delta consultation inside `Sync`. `skipped` stands for
the branch that reports a delta-skip and commits a delta on both sides;
`scoped` carries the installed filter rules; `full` is an unscoped sync. -/
inductive SyncMode
  | skipped
  | scoped (includeRules excludeRules : List String)
  | full
deriving DecidableEq, Repr

/-- The delta-sync decision taken by `Sync` (lines 104–125): skip when both
sides' `ShouldSkipSync` holds; otherwise scope to the drained source
changes when they are non-empty and below the fallback cap; otherwise run
a full sync. -/
def syncDeltaDecision (d : DeltaServiceState) (now : Int) (srcKey dstKey : String)
    (baseInclude baseExclude : List String) : SyncMode :=
  if shouldSkipSync d now srcKey && shouldSkipSync d now dstKey then .skipped
  else
    match getChanges d srcKey with
    | some cs =>
      if cs.hasChanges && decide (cs.changes.length < maxChangesBeforeFallback) then
        .scoped (scopeIncludeRules baseInclude cs.changes) (scopeExcludeRules baseExclude)
      else .full
    | none => .full

/-! ## Auth service rate limiting (`AuthService.Unlock`)

The mutable fields of `AuthData` touched by `Unlock`, plus the `unlocked`
flag.  Password verification, file decryption and app initialization are
externally-determined outcomes, passed as booleans.  The server-side
`time.Sleep` is modelled by returning the slept seconds. -/

/-- `maxAttemptsBeforeDelay` from the auth service constants. -/
def maxAttemptsBeforeDelay : Nat := 3

/-- `maxAttemptsBeforeLock` from the auth service constants. -/
def maxAttemptsBeforeLock : Nat := 10

/-- `lockoutDuration` (5 minutes), in seconds. -/
def lockoutDuration : Int := 300

/-- The auth state relevant to `Unlock`: the `Enabled` flag, the in-memory
`unlocked` flag, and the persisted `FailedAttempts` / `LockoutUntil`
fields (`none` models the empty string). -/
structure AuthRL where
  enabled : Bool
  unlocked : Bool
  failedAttempts : Nat
  lockoutUntil : Option Int
deriving DecidableEq, Repr

/-- Result of one `Unlock` call. -/
inductive UnlockResult
  | ok
  | errNotEnabled
  | errLocked (remainingSecs : Int)
  | errWrongPassword
  | errDecryptFailed
  | errInitFailed
deriving DecidableEq, Repr

/-- Whether a stored lockout timestamp is still in the future. -/
def lockedOut (st : AuthRL) (now : Int) : Bool :=
  match st.lockoutUntil with
  | some t => decide (now < t)
  | none => false

/-- `AuthService.Unlock` (auth service, lines 751–832): returns the result,
the number of seconds slept server-side, and the post state.
`passwordOk` models `verifyPasswordHash`; `decryptOk` the outcome of
`decryptConfigFiles`; `initOk` the outcome of `initializeApp`. -/
def unlockStep (st : AuthRL) (now : Int) (passwordOk decryptOk initOk : Bool) :
    UnlockResult × Nat × AuthRL :=
  if st.enabled = false then (.errNotEnabled, 0, st)
  else if st.unlocked then (.ok, 0, st)
  else
    match st.lockoutUntil with
    | some t =>
      if now < t then (.errLocked (t - now), 0, st)
      else unlockAfterLockoutCheck { st with lockoutUntil := none } now passwordOk decryptOk initOk
    | none => unlockAfterLockoutCheck st now passwordOk decryptOk initOk
where
  /-- The body of `Unlock` after the lockout check: rate-limit delay,
  password verification, decryption and initialization. -/
  unlockAfterLockoutCheck (st : AuthRL) (now : Int) (passwordOk decryptOk initOk : Bool) :
      UnlockResult × Nat × AuthRL :=
    let delay : Nat :=
      if maxAttemptsBeforeDelay ≤ st.failedAttempts ∧ st.failedAttempts < maxAttemptsBeforeLock
      then 2 ^ (st.failedAttempts - maxAttemptsBeforeDelay) else 0
    if passwordOk = false then
      let fa := st.failedAttempts + 1
      if maxAttemptsBeforeLock ≤ fa then
        (.errWrongPassword, delay,
          { st with failedAttempts := 0, lockoutUntil := some (now + lockoutDuration) })
      else
        (.errWrongPassword, delay, { st with failedAttempts := fa })
    else
      if decryptOk = false then (.errDecryptFailed, delay, st)
      else
        let st := { st with failedAttempts := 0, lockoutUntil := none }
        if initOk = false then (.errInitFailed, delay, st)
        else (.ok, delay, { st with unlocked := true })

/-! ## Password change (`AuthService.ChangePassword`)

The vault state is abstracted to which password the stored hash matches,
how the two sensitive files sit on disk, the in-memory key, and the
`unlocked` / database flags.  Each fallible step's outcome is a boolean
flag, so every failure path of the Go code is reachable. -/

/-- Which of the two passwords a key or hash belongs to. -/
inductive KeyTag
  | oldK
  | newK
deriving DecidableEq, Repr

/-- How the two sensitive files sit on disk: all plaintext, all encrypted
under a key, or a partially-encrypted mix left by a failed
`encryptConfigFiles` run under that key. -/
inductive FilesOnDisk
  | plaintext
  | encrypted (k : KeyTag)
  | mixedEnc (k : KeyTag)
deriving DecidableEq, Repr

/-- Vault state as seen by `ChangePassword`. -/
structure VaultState where
  unlocked : Bool
  storedHash : KeyTag
  files : FilesOnDisk
  memKey : Option KeyTag
  dbOpen : Bool
deriving DecidableEq, Repr

/-- Outcome of one `ChangePassword` call, by exit path. -/
inductive CPResult
  | ok
  | errPrecondition
  | errEncrypt
  | errEncryptUnrecovered
  | errSave
  | errSaveUnrecovered
  | errDecrypt
  | errInitDb
deriving DecidableEq, Repr

/-- Externally-determined outcomes of the fallible steps of
`ChangePassword`, in program order: precondition checks (old password
verifies, new password long enough), `encryptConfigFiles(newKey)`, the
recovery `decryptConfigFiles(newKey)` after a failed encrypt,
`saveAuthData`, the recovery decrypt after a failed save, the forced
best-effort re-save of the new hash, the final
`decryptConfigFiles(newKey)`, and `InitDatabase`. -/
structure CPFlags where
  preOk : Bool
  encOk : Bool
  decRec1Ok : Bool
  saveOk : Bool
  decRec2Ok : Bool
  save2Ok : Bool
  decFinOk : Bool
  initOk : Bool
deriving DecidableEq, Repr

/-- `AuthService.ChangePassword` (auth service, lines 851–954). -/
def changePassword (st : VaultState) (f : CPFlags) : CPResult × VaultState :=
  if st.unlocked = false || f.preOk = false then (.errPrecondition, st)
  else
    -- CloseDatabase / ResetSharedDB
    let st1 : VaultState := { st with dbOpen := false }
    if f.encOk = false then
      -- encryptConfigFiles(newKey) failed part-way
      if f.decRec1Ok = true then
        -- recovery decrypt restores plaintext; InitDatabase() error is ignored
        (.errEncrypt, { st1 with files := .plaintext, dbOpen := f.initOk })
      else
        -- recovery failed: mixed files, zero key, mark locked
        (.errEncryptUnrecovered,
          { st1 with files := .mixedEnc .newK, memKey := none, unlocked := false })
    else
      let st2 : VaultState := { st1 with files := .encrypted .newK }
      if f.saveOk = false then
        -- saveAuthData failed; in-memory hash reverted (disk still has the old hash)
        if f.decRec2Ok = true then
          (.errSave, { st2 with files := .plaintext, dbOpen := f.initOk })
        else
          -- cannot decrypt back: force the new hash into auth.json (best effort)
          let hash := if f.save2Ok then KeyTag.newK else st.storedHash
          (.errSaveUnrecovered,
            { st2 with storedHash := hash, memKey := none, unlocked := false })
      else
        let st3 : VaultState := { st2 with storedHash := .newK }
        if f.decFinOk = false then
          (.errDecrypt, { st3 with memKey := none, unlocked := false })
        else
          let st4 : VaultState := { st3 with files := .plaintext }
          if f.initOk = false then
            (.errInitDb, { st4 with memKey := none, unlocked := false })
          else
            (.ok, { st4 with memKey := some .newK, dbOpen := true })

/-- The well-formed unlocked state in which `ChangePassword` is called:
unlocked, old hash stored, files plaintext, old key in memory, DB open. -/
def goodVault : VaultState :=
  { unlocked := true, storedHash := .oldK, files := .plaintext,
    memKey := some .oldK, dbOpen := true }

/-! ## Progress composition (`createStatusFromStats`)

The `RemoteStats` map returned by rclone's accounting is modelled as a
typed snapshot (the Go code reads it through type assertions).  Only the
success branch (`err == nil`) is modelled; string formatting of speed,
ETA and elapsed time is elided as it plays no role in the claims. -/

/-- One entry of `remoteStats["transferring"]`. -/
structure TransferringItem where
  name : String
  size : Int
  bytes : Int
  percentage : Int
deriving DecidableEq, Repr

/-- One entry of `stats.Transferred()`: a completed, checked or failed
transfer; `errMsg` is meaningful only when `hasError`. -/
structure TransferredItem where
  name : String
  size : Int
  bytes : Int
  hasError : Bool
  errMsg : String
  checked : Bool
deriving DecidableEq, Repr

/-- Typed snapshot of the rclone accounting stats read by
`createStatusFromStats`. -/
structure RemoteSnapshot where
  totalTransfers : Int
  totalBytes : Int
  transfers : Int
  bytes : Int
  errors : Int
  checks : Int
  totalChecks : Int
  deletes : Int
  renames : Int
  transferring : List TransferringItem
  checking : List String
  transferred : List TransferredItem
deriving DecidableEq, Repr

/-- `dto.FileTransferInfo` (the fields that the composition writes). -/
structure FileTransferInfo where
  name : String
  status : String
  size : Int
  bytes : Int
  progress : Int
  errMsg : String
deriving DecidableEq, Repr

/-- The fields of `dto.SyncStatusDTO` set by `createStatusFromStats` that
the claims are about. -/
structure SyncStatusDTO where
  totalFiles : Int
  totalBytes : Int
  filesTransferred : Int
  bytesTransferred : Int
  errors : Int
  checks : Int
  totalChecks : Int
  deletes : Int
  renames : Int
  transfers : List FileTransferInfo
deriving DecidableEq, Repr

/-- The per-file transfer list composed by `createStatusFromStats`:
in-progress transfers, then in-progress checks, then the completed
transfer ring with `failed` / `checked` / `completed` statuses. -/
def composeTransfers (snap : RemoteSnapshot) : List FileTransferInfo :=
  snap.transferring.map (fun t =>
    { name := t.name, status := "transferring", size := t.size, bytes := t.bytes,
      progress := t.percentage, errMsg := "" })
  ++ snap.checking.map (fun n =>
    { name := n, status := "checking", size := 0, bytes := 0, progress := 0, errMsg := "" })
  ++ snap.transferred.map (fun t =>
    if t.hasError then
      { name := t.name, status := "failed", size := t.size, bytes := t.bytes,
        progress := 0, errMsg := t.errMsg }
    else if t.checked then
      { name := t.name, status := "checked", size := t.size, bytes := t.bytes,
        progress := 100, errMsg := "" }
    else
      { name := t.name, status := "completed", size := t.size, bytes := t.bytes,
        progress := 100, errMsg := "" })

/-- The derive-counts loop at the end of `createStatusFromStats`: one pass
over the composed transfer list counting `failed` into the error count and
`checked` / `checking` into the check count. -/
def deriveCounts (ts : List FileTransferInfo) : Int × Int :=
  ts.foldl
    (fun acc t =>
      if t.status = "failed" then (acc.1 + 1, acc.2)
      else if t.status = "checked" ∨ t.status = "checking" then (acc.1, acc.2 + 1)
      else acc)
    (0, 0)

/-- `createStatusFromStats` (progress file, lines 117–322), restricted to
the counter and transfer-list fields: raw counters are copied from the
snapshot, the transfer list is composed, and when that list is non-empty
the error and check counters are re-derived from it. -/
def composeStatus (snap : RemoteSnapshot) : SyncStatusDTO :=
  let ts := composeTransfers snap
  let base : SyncStatusDTO :=
    { totalFiles := snap.totalTransfers, totalBytes := snap.totalBytes,
      filesTransferred := snap.transfers, bytesTransferred := snap.bytes,
      errors := snap.errors, checks := snap.checks, totalChecks := snap.totalChecks,
      deletes := snap.deletes, renames := snap.renames, transfers := ts }
  if 0 < ts.length then
    { base with errors := (deriveCounts ts).1, checks := (deriveCounts ts).2 }
  else base

/-! ## Progress teardown (`startProgress` cleanup, lines 451–474)

The returned cleanup closure sets the closed flag, detaches the log
sinks, signals and joins the sampler, and then — only if residual log
lines remain — emits one final sample with a non-blocking send.  The
caller-owned channel is never closed.  Channel activity is modelled as a
list of actions. -/

/-- `maxLogMessagesPerStatus` from the progress file constants. -/
def maxLogMessagesPerStatus : Nat := 50

/-- The log-cap rule of `createStatusFromStats`: keep only the last
`maxLogMessagesPerStatus` lines. -/
def capLogs (logs : List String) : List String :=
  if maxLogMessagesPerStatus < logs.length
  then logs.drop (logs.length - maxLogMessagesPerStatus)
  else logs

/-- An action performed on the caller-owned output channel. -/
inductive ChanAction
  | send (logs : List String)
  | close
deriving DecidableEq, Repr

/-- The channel actions performed by the `startProgress` cleanup after the
sampler has been joined: a final sample carrying the residual (capped)
log lines is sent non-blocking only when residual lines exist; the
channel is never closed. -/
def progressTeardown (residualLogs : List String) (channelHasRoom : Bool) : List ChanAction :=
  if 0 < residualLogs.length then
    if channelHasRoom then [.send (capLogs residualLogs)] else []
  else []

/-! ## Encryption envelope (`EncryptData` / `DecryptData` /
`encryptFile` / `decryptFile`)

Bytes are `List Nat`.  `crypto/aes` + `cipher.NewGCM` live outside the
repository; the AEAD pair is a parameter `(seal, opn)` whose contract
(round-trip, authenticity) enters the theorems as hypotheses.  The
12-byte random nonce drawn by `rand.Read` is a parameter.  `aes.NewCipher`
rejects keys whose length is not 16, 24 or 32. -/

/-- `gcm.NonceSize()` for AES-GCM. -/
def gcmNonceSize : Nat := 12

/-- Valid AES key lengths accepted by `aes.NewCipher`. -/
def aesKeyLenOk (key : List Nat) : Bool :=
  decide (key.length = 16) || decide (key.length = 24) || decide (key.length = 32)

/-- `EncryptData` (progress file, lines 1331–1349): the ciphertext is the
nonce followed by the GCM-sealed payload (`gcm.Seal(nonce, nonce, data, nil)`). -/
def EncryptData (sealFn : List Nat → List Nat → List Nat → List Nat)
    (nonce key data : List Nat) : Except String (List Nat) :=
  if aesKeyLenOk key = false then .error "invalid key size"
  else .ok (nonce ++ sealFn key nonce data)

/-- `DecryptData` (progress file, lines 1351–1370): check the length
against the nonce size, split the nonce off, and open. -/
def DecryptData (opn : List Nat → List Nat → List Nat → Option (List Nat))
    (key ciphertext : List Nat) : Except String (List Nat) :=
  if aesKeyLenOk key = false then .error "invalid key size"
  else if ciphertext.length < gcmNonceSize then .error "ciphertext too short"
  else
    match opn key (ciphertext.take gcmNonceSize) (ciphertext.drop gcmNonceSize) with
    | some plaintext => .ok plaintext
    | none => .error "cipher: message authentication failed"

/-- `decryptFile` (progress file, lines 1296–1329), on the file's byte
content: identical framing to `DecryptData`, with the authentication
failure wrapped as a wrong-password error. -/
def decryptFileContent (opn : List Nat → List Nat → List Nat → Option (List Nat))
    (key ciphertext : List Nat) : Except String (List Nat) :=
  if aesKeyLenOk key = false then .error "invalid key size"
  else if ciphertext.length < gcmNonceSize then .error "ciphertext too short"
  else
    match opn key (ciphertext.take gcmNonceSize) (ciphertext.drop gcmNonceSize) with
    | some plaintext => .ok plaintext
    | none => .error "decryption failed (wrong password or corrupted data)"

/-- Flip bit `i % 8` of byte `i / 8` of a byte string (out-of-range
indices leave the string unchanged). -/
def flipBit (i : Nat) (bs : List Nat) : List Nat :=
  bs.set (i / 8) (Nat.xor (bs.getD (i / 8) 0) (2 ^ (i % 8)))

/-! A small concrete AEAD used to witness the crypto theorems: the sealed
payload is the plaintext followed by a one-byte tag mixing key, nonce and
body; `openModel` re-computes and compares the tag.  It satisfies the
round-trip and (for the concrete witness inputs) the authenticity
hypotheses. -/

/-- Tag of the model AEAD. -/
def tagSum (key nonce body : List Nat) : Nat :=
  (key.sum + nonce.sum + body.sum) % 256

/-- Seal of the model AEAD: plaintext plus one tag byte. -/
def sealModel (key nonce data : List Nat) : List Nat :=
  data ++ [tagSum key nonce data]

/-- Open of the model AEAD: strip the tag byte and verify it. -/
def openModel (key nonce c : List Nat) : Option (List Nat) :=
  match c.getLast? with
  | none => none
  | some t => if t = tagSum key nonce c.dropLast then some c.dropLast else none

/-! ## Theorems -/

/-- Preservation of the watcher accounting invariant by one operation. -/
theorem stepWatcher_preserves (s : WatcherRun) (op : WatcherOp)
    (h : (↑((s.drained ++ s.buf)) : Multiset FileChange) = ↑(s.callbacks ++ s.restored)) :
    (↑(((stepWatcher s op).drained ++ (stepWatcher s op).buf)) : Multiset FileChange)
      = ↑((stepWatcher s op).callbacks ++ (stepWatcher s op).restored) := by
  cases op with
  | callback c =>
    simp only [stepWatcher, notifyCallback, ← Multiset.coe_add] at h ⊢
    rw [← add_assoc, h]
    abel
  | drain =>
    simp only [stepWatcher, drainChanges, ← Multiset.coe_add] at h ⊢
    rw [h]
    simp
  | restore cs =>
    by_cases hcs : cs.isEmpty
    · simp only [stepWatcher, restoreChanges, if_pos hcs, ← Multiset.coe_add] at h ⊢
      rw [List.isEmpty_iff] at hcs
      subst hcs
      rw [h]
      simp
    · simp only [stepWatcher, restoreChanges, if_neg hcs, ← Multiset.coe_add] at h ⊢
      rw [show ((s.drained : Multiset FileChange) + (↑cs + ↑s.buf))
            = (↑s.drained + ↑s.buf) + ↑cs from by abel, h]
      abel

/-- Invariant along any run, from any invariant-satisfying start. -/
theorem foldl_stepWatcher_inv (ops : List WatcherOp) (s : WatcherRun)
    (h : (↑((s.drained ++ s.buf)) : Multiset FileChange) = ↑(s.callbacks ++ s.restored)) :
    (↑(((ops.foldl stepWatcher s).drained ++ (ops.foldl stepWatcher s).buf)) : Multiset FileChange)
      = ↑((ops.foldl stepWatcher s).callbacks ++ (ops.foldl stepWatcher s).restored) := by
  induction ops generalizing s with
  | nil => exact h
  | cons op rest ih => exact ih _ (stepWatcher_preserves s op h)

/-- **C3.** For every watcher and every sequence of buffer operations, the
multiset of changes delivered by `DrainChanges` plus those still in the
buffer equals the multiset of callback-delivered changes plus those put
back by `RestoreChanges` — no change event is silently lost — and
`RestoreChanges` places the restored changes strictly before any changes
that accumulated in the buffer since the drain. -/
theorem watcher_no_change_lost (ops : List WatcherOp) (s : WatcherRun) (cs : List FileChange) :
    ((↑(((runWatcher ops).drained ++ (runWatcher ops).buf)) : Multiset FileChange)
      = ↑((runWatcher ops).callbacks ++ (runWatcher ops).restored))
    ∧ (stepWatcher s (.restore cs)).buf = cs ++ s.buf := by
  constructor
  · exact foldl_stepWatcher_inv ops ⟨[], [], [], []⟩ rfl
  · show restoreChanges cs s.buf = cs ++ s.buf
    rw [restoreChanges]
    by_cases hcs : cs.isEmpty
    · rw [if_pos hcs, List.isEmpty_iff.mp hcs, List.nil_append]
    · rw [if_neg hcs]

/-- **C9.** Remote key normalisation: a location containing a `<remote>:`
prefix (equivalently, a colon) is mapped to itself, and a bare local path
— one with no colon — is mapped to `local:` followed by the path. -/
theorem remoteKey_normalisation (p : List Char) :
    ((∃ r rest, p = r ++ ':' :: rest) ↔ ':' ∈ p) ∧
    ((∃ r rest, p = r ++ ':' :: rest) → remoteKey p = p) ∧
    (':' ∉ p → remoteKey p = "local:".toList ++ p) := by
  refine ⟨⟨?_, ?_⟩, ?_, ?_⟩
  · rintro ⟨r, rest, rfl⟩
    simp
  · intro hm
    obtain ⟨s, t, rfl⟩ := List.append_of_mem hm
    exact ⟨s, t, rfl⟩
  · rintro ⟨r, rest, rfl⟩
    rw [remoteKey, if_pos (by simp)]
  · intro h
    rw [remoteKey, if_neg h]

/-- Witness for C9: a remote-prefixed location is its own key and a bare
path gets the `local:` prefix. -/
theorem remoteKey_normalisation_witness :
    remoteKey "gdrive:/data".toList = "gdrive:/data".toList ∧
    remoteKey "/home/user/docs".toList = "local:/home/user/docs".toList :=
  ⟨(remoteKey_normalisation _).2.1 ⟨"gdrive".toList, "/data".toList, by decide⟩,
   (remoteKey_normalisation _).2.2 (by decide)⟩

/-- **C1.** `ShouldSkipSync` returns `true` only when a watcher for the key
exists and is running, its persisted state is readable, the
consecutive-delta counter is below 50, no more than 24 hours have passed
since the last recorded full sync, and the watcher's change buffer is
empty; and `Sync` takes the delta-skip branch (reporting a delta-skip and
committing a delta on both sides) only when `ShouldSkipSync` holds for
both the source and the destination key. -/
theorem shouldSkipSync_sound (d : DeltaServiceState) (now : Int)
    (srcKey dstKey : String) (bi be : List String)
    (hskip : syncDeltaDecision d now srcKey dstKey bi be = .skipped) :
    shouldSkipSync d now srcKey = true ∧ shouldSkipSync d now dstKey = true ∧
    ∀ key, shouldSkipSync d now key = true →
      ∃ w st, d.watchers key = some w ∧ w.running = true ∧
        d.getState key = some (some st) ∧
        st.deltaCount < maxDeltaSyncsBeforeFullSync ∧
        (∀ t, st.lastFullSync = some t → now - t ≤ maxTimeBetweenFullSyncs) ∧
        w.changes = [] := by
  have hboth : (shouldSkipSync d now srcKey && shouldSkipSync d now dstKey) = true := by
    by_contra hno
    rw [syncDeltaDecision, if_neg (by simpa using hno)] at hskip
    split at hskip
    · split at hskip
      · exact absurd hskip (by simp)
      · exact absurd hskip (by simp)
    · exact absurd hskip (by simp)
  obtain ⟨h1, h2⟩ := Bool.and_eq_true_iff.mp hboth
  refine ⟨h1, h2, ?_⟩
  intro key hkey
  unfold shouldSkipSync at hkey
  split at hkey
  · exact absurd hkey (by simp)
  next w hw =>
    split at hkey
    · exact absurd hkey (by simp)
    next hrunneg =>
      have hrun : w.running = true := by simpa using hrunneg
      split at hkey
      · exact absurd hkey (by simp)
      · exact absurd hkey (by simp)
      next st hst =>
        split at hkey
        · exact absurd hkey (by simp)
        next hcnt =>
          have hbuf : ∀ h : (!hasChangesBuf w.changes) = true, w.changes = [] := by
            intro h
            simpa [hasChangesBuf, List.length_eq_zero] using h
          split at hkey
          next t hlf =>
            split at hkey
            · exact absurd hkey (by simp)
            next htime =>
              refine ⟨w, st, hw, hrun, hst, Nat.lt_of_not_le hcnt, ?_, hbuf hkey⟩
              intro t' ht'
              rw [hlf] at ht'
              cases ht'
              omega
          next hlf =>
            refine ⟨w, st, hw, hrun, hst, Nat.lt_of_not_le hcnt, ?_, hbuf hkey⟩
            intro t' ht'
            rw [hlf] at ht'
            exact absurd ht' (by simp)

/-- A concrete delta-service state in which both sides can skip. -/
def dExSkip : DeltaServiceState :=
  ⟨fun _ => some ⟨true, []⟩,
   fun _ => some (some ⟨"k", "drive", true, some 0, 10⟩)⟩

/-- Witness for C1: a state with running watchers, readable state, a delta
count of 10, a one-hour-old full sync and empty buffers is skipped, and
the necessary conditions follow. -/
theorem shouldSkipSync_sound_witness :
    syncDeltaDecision dExSkip 3600 "a:" "b:" [] [] = SyncMode.skipped ∧
    (shouldSkipSync dExSkip 3600 "a:" = true ∧ shouldSkipSync dExSkip 3600 "b:" = true ∧
      ∀ key, shouldSkipSync dExSkip 3600 key = true →
        ∃ w st, dExSkip.watchers key = some w ∧ w.running = true ∧
          dExSkip.getState key = some (some st) ∧
          st.deltaCount < maxDeltaSyncsBeforeFullSync ∧
          (∀ t, st.lastFullSync = some t → 3600 - t ≤ maxTimeBetweenFullSyncs) ∧
          w.changes = []) :=
  ⟨by decide, shouldSkipSync_sound dExSkip 3600 "a:" "b:" [] [] (by decide)⟩

/-- Membership of the generated scope rules: every change whose path has
not been seen yet contributes `/<p>` — and `/<p>/**` when every buffered
change for that path is a directory entry (with repeated paths, the Go
`seen` map keeps only the first occurrence, so the directory rule is
guaranteed when the path is unambiguously a directory). -/
theorem scopeRules_mem (cs : List FileChange) :
    ∀ seen, ∀ c ∈ cs, c.path ∉ seen →
      ("/" ++ c.path) ∈ scopeRules seen cs ∧
      ((∀ c' ∈ cs, c'.path = c.path → c'.entryType = .directory) →
         ("/" ++ c.path ++ "/**") ∈ scopeRules seen cs) := by
  induction cs with
  | nil => intro seen c hc; exact absurd hc (List.not_mem_nil c)
  | cons a rest ih =>
    intro seen c hc hcseen
    rcases List.mem_cons.mp hc with rfl | hcrest
    · rw [scopeRules, if_neg hcseen]
      constructor
      · by_cases hdir : c.entryType = .directory
        · rw [if_pos hdir]; simp
        · rw [if_neg hdir]; simp
      · intro hall
        have hdir : c.entryType = .directory := hall c (List.mem_cons_self c rest) rfl
        rw [if_pos hdir]
        simp
    · rw [scopeRules]
      by_cases hseen : a.path ∈ seen
      · rw [if_pos hseen]
        have := ih seen c hcrest hcseen
        exact ⟨this.1,
               fun hall => this.2 fun c' hc' => hall c' (List.mem_cons_of_mem a hc')⟩
      · rw [if_neg hseen]
        by_cases heq : c.path = a.path
        · constructor
          · apply List.mem_append_left
            rw [heq]
            by_cases hdir : a.entryType = .directory
            · rw [if_pos hdir]; simp
            · rw [if_neg hdir]; simp
          · intro hall
            have hdir : a.entryType = .directory :=
              hall a (List.mem_cons_self a rest) heq.symm
            apply List.mem_append_left
            rw [heq, if_pos hdir]
            simp
        · have := ih (a.path :: seen) c hcrest (by simp [heq, hcseen])
          exact ⟨List.mem_append_right _ this.1,
                 fun hall => List.mem_append_right _
                   (this.2 fun c' hc' => hall c' (List.mem_cons_of_mem a hc'))⟩

/-- **C2.** When the sync is not skipped and the source watcher holds a
non-empty change set of fewer than 5000 changes, `Sync` runs scoped: the
installed filter contains `/<p>` for every changed path and additionally
`/<p>/**` for every path whose buffered entries are directories (for a
path notified once, exactly the claim's directory/file split), with the
catch-all `**` exclude rule last; with 5000 or more changes a full sync
runs instead. -/
theorem scoped_delta_filter (d : DeltaServiceState) (now : Int)
    (srcKey dstKey : String) (bi be : List String) (w : WatcherState)
    (hns : ¬(shouldSkipSync d now srcKey = true ∧ shouldSkipSync d now dstKey = true))
    (hw : d.watchers srcKey = some w) (hrun : w.running = true) :
    (w.changes ≠ [] → w.changes.length < maxChangesBeforeFallback →
       syncDeltaDecision d now srcKey dstKey bi be =
         .scoped (scopeIncludeRules bi w.changes) (scopeExcludeRules be) ∧
       (∀ c ∈ w.changes,
          ("/" ++ c.path) ∈ scopeIncludeRules bi w.changes ∧
          ((∀ c' ∈ w.changes, c'.path = c.path → c'.entryType = .directory) →
             ("/" ++ c.path ++ "/**") ∈ scopeIncludeRules bi w.changes)) ∧
       (scopeExcludeRules be).getLast? = some "**") ∧
    (maxChangesBeforeFallback ≤ w.changes.length →
       syncDeltaDecision d now srcKey dstKey bi be = .full) := by
  have hcond : (shouldSkipSync d now srcKey && shouldSkipSync d now dstKey) ≠ true := by
    simpa using hns
  have hget : getChanges d srcKey =
      if w.changes.length = 0 then some ⟨srcKey, [], false⟩
      else some ⟨srcKey, w.changes, true⟩ := by
    unfold getChanges
    rw [hw]
    simp [hrun, drainChanges]
  constructor
  · intro hne hlt
    have hlen : ¬ w.changes.length = 0 := fun h0 => hne (List.length_eq_zero.mp h0)
    rw [if_neg hlen] at hget
    constructor
    · rw [syncDeltaDecision, if_neg hcond, hget]
      simp [hlt]
    constructor
    · intro c hc
      have := scopeRules_mem w.changes [] c hc (List.not_mem_nil _)
      exact ⟨List.mem_append_right _ this.1,
             fun hall => List.mem_append_right _ (this.2 hall)⟩
    · rw [scopeExcludeRules]
      exact List.getLast?_concat be
  · intro hlen
    have hne : ¬ w.changes.length = 0 := by
      rw [maxChangesBeforeFallback] at hlen; omega
    rw [if_neg hne] at hget
    rw [syncDeltaDecision, if_neg hcond, hget]
    have hnlt : ¬ w.changes.length < maxChangesBeforeFallback := by omega
    simp [hnlt]

/-- A concrete changed-file pair: a directory and a file. -/
def changesEx : List FileChange :=
  [⟨"docs", .directory, .modified, 0⟩, ⟨"notes.md", .object, .modified, 0⟩]

/-- A concrete delta-service state whose source watcher holds two changes. -/
def dExScoped : DeltaServiceState :=
  ⟨fun _ => some ⟨true, changesEx⟩,
   fun _ => some (some ⟨"k", "drive", true, some 0, 10⟩)⟩

/-- A buffer of exactly 5000 changes, and a delta-service state holding it. -/
def changesBig : List FileChange :=
  List.replicate 5000 ⟨"big.bin", .object, .modified, 0⟩

/-- Delta-service state whose source watcher holds 5000 changes. -/
def dExBig : DeltaServiceState :=
  ⟨fun _ => some ⟨true, changesBig⟩,
   fun _ => some (some ⟨"k", "drive", true, some 0, 10⟩)⟩

/-- Witness for C2: with two pending changes the decision is a scoped sync
whose rules include `/docs/**` and `/notes.md` and end with the `**`
exclude; with 5000 pending changes the decision is a full sync. -/
theorem scoped_delta_filter_witness :
    syncDeltaDecision dExScoped 0 "a:" "b:" [] [] =
      SyncMode.scoped (scopeIncludeRules [] changesEx) (scopeExcludeRules []) ∧
    ("/docs/**" ∈ scopeIncludeRules [] changesEx ∧
     "/notes.md" ∈ scopeIncludeRules [] changesEx) ∧
    (scopeExcludeRules []).getLast? = some "**" ∧
    syncDeltaDecision dExBig 0 "a:" "b:" [] [] = SyncMode.full := by
  have hlen5000 : changesBig.length = 5000 := by
    rw [changesBig, List.length_replicate]
  have hhc : hasChangesBuf changesBig = true := by
    rw [hasChangesBuf, hlen5000]
    decide
  have hss : shouldSkipSync dExBig 0 "a:" = false := by
    rw [show shouldSkipSync dExBig 0 "a:" = !hasChangesBuf changesBig from rfl, hhc]
    rfl
  have hns : ¬(shouldSkipSync dExBig 0 "a:" = true ∧ shouldSkipSync dExBig 0 "b:" = true) := by
    rw [hss]
    simp
  have h := (scoped_delta_filter dExScoped 0 "a:" "b:" [] [] ⟨true, changesEx⟩
    (by decide) rfl rfl).1 (by decide) (by decide)
  have hbig := (scoped_delta_filter dExBig 0 "a:" "b:" [] [] ⟨true, changesBig⟩
    hns rfl rfl).2 (by rw [hlen5000]; decide)
  refine ⟨h.1, ⟨?_, ?_⟩, h.2.2, hbig⟩
  · exact (h.2.1 ⟨"docs", .directory, .modified, 0⟩ (by decide)).2 (by decide)
  · exact (h.2.1 ⟨"notes.md", .object, .modified, 0⟩ (by decide)).1

/-- **C4.** `Unlock` enforces the rate-limit schedule: with at most 2 prior
failures (attempts 1-3) no server-side delay is applied; with 3-8 prior
failures (attempts 4-9) the delay is `2^(f-3)` seconds, i.e. 1, 2, 4, 8,
16, 32 s; a wrong password on the 10th attempt (9 prior failures) sets a
5-minute lockout and resets the failed-attempts counter to 0; an attempt
during the lockout window fails with the remaining seconds and leaves the
state unchanged; and a successful unlock resets the counter to 0 and sets
the unlocked flag. -/
theorem unlock_rate_limit (fa : Nat) (lo : Option Int) (now : Int) (pOk dOk iOk : Bool) :
    (lockedOut ⟨true, false, fa, lo⟩ now = false →
       (fa ≤ 2 → (unlockStep ⟨true, false, fa, lo⟩ now pOk dOk iOk).2.1 = 0) ∧
       (3 ≤ fa → fa ≤ 8 →
          (unlockStep ⟨true, false, fa, lo⟩ now pOk dOk iOk).2.1 = 2 ^ (fa - 3)) ∧
       (fa = 9 → pOk = false →
          (unlockStep ⟨true, false, fa, lo⟩ now pOk dOk iOk).2.2.lockoutUntil
              = some (now + lockoutDuration) ∧
          (unlockStep ⟨true, false, fa, lo⟩ now pOk dOk iOk).2.2.failedAttempts = 0) ∧
       ((unlockStep ⟨true, false, fa, lo⟩ now pOk dOk iOk).1 = .ok →
          (unlockStep ⟨true, false, fa, lo⟩ now pOk dOk iOk).2.2.failedAttempts = 0 ∧
          (unlockStep ⟨true, false, fa, lo⟩ now pOk dOk iOk).2.2.unlocked = true)) ∧
    (∀ t, lo = some t → now < t →
       (unlockStep ⟨true, false, fa, lo⟩ now pOk dOk iOk).1 = .errLocked (t - now) ∧
       (unlockStep ⟨true, false, fa, lo⟩ now pOk dOk iOk).2.2 = ⟨true, false, fa, lo⟩) := by
  constructor
  · intro hnl
    have hred : unlockStep ⟨true, false, fa, lo⟩ now pOk dOk iOk
        = unlockStep.unlockAfterLockoutCheck ⟨true, false, fa, none⟩ now pOk dOk iOk := by
      rcases lo with _ | t
      · rfl
      · have ht : ¬ now < t := by
          simpa [lockedOut] using hnl
        simp [unlockStep, ht]
    rw [hred]
    refine ⟨?_, ?_, ?_, ?_⟩
    · intro hfa
      have hd : ¬ (maxAttemptsBeforeDelay ≤ fa ∧ fa < maxAttemptsBeforeLock) := by
        rw [maxAttemptsBeforeDelay, maxAttemptsBeforeLock]; omega
      rcases pOk with _ | _ <;> rcases dOk with _ | _ <;> rcases iOk with _ | _ <;>
        simp [unlockStep.unlockAfterLockoutCheck, hd] <;> split <;> simp
    · intro hfa3 hfa8
      have hd : maxAttemptsBeforeDelay ≤ fa ∧ fa < maxAttemptsBeforeLock := by
        rw [maxAttemptsBeforeDelay, maxAttemptsBeforeLock]; omega
      have hd2 : ¬ (maxAttemptsBeforeLock ≤ fa + 1) := by
        rw [maxAttemptsBeforeLock]; omega
      rcases pOk with _ | _ <;> rcases dOk with _ | _ <;> rcases iOk with _ | _ <;>
        simp [unlockStep.unlockAfterLockoutCheck, hd, hd2, maxAttemptsBeforeDelay] <;>
        exact fun h => absurd h (by omega)
    · rintro rfl rfl
      simp [unlockStep.unlockAfterLockoutCheck, maxAttemptsBeforeLock]
    · rcases pOk with _ | _ <;> rcases dOk with _ | _ <;> rcases iOk with _ | _ <;>
        simp [unlockStep.unlockAfterLockoutCheck] <;> split <;> simp
  · rintro t rfl htime
    simp [unlockStep, htime]

/-- Witness for C4: at 9 prior failures a wrong password locks the vault
for 300 s and zeroes the counter; at 5 prior failures the delay is 4 s;
with a correct password the counter resets and the vault unlocks; during
an active lockout the attempt fails with the remaining 200 s. -/
theorem unlock_rate_limit_witness :
    ((unlockStep ⟨true, false, 9, none⟩ 1000 false true true).2.2.lockoutUntil = some 1300 ∧
     (unlockStep ⟨true, false, 9, none⟩ 1000 false true true).2.2.failedAttempts = 0) ∧
    (unlockStep ⟨true, false, 5, none⟩ 1000 false true true).2.1 = 4 ∧
    ((unlockStep ⟨true, false, 5, none⟩ 1000 true true true).2.2.failedAttempts = 0 ∧
     (unlockStep ⟨true, false, 5, none⟩ 1000 true true true).2.2.unlocked = true) ∧
    (unlockStep ⟨true, false, 0, some 1200⟩ 1000 false true true).1
        = UnlockResult.errLocked 200 :=
  ⟨((unlock_rate_limit 9 none 1000 false true true).1 (by decide)).2.2.1 rfl rfl,
   ((unlock_rate_limit 5 none 1000 false true true).1 (by decide)).2.1
      (by decide) (by decide),
   ((unlock_rate_limit 5 none 1000 true true true).1 (by decide)).2.2.2 (by decide),
   ((unlock_rate_limit 0 (some 1200) 1000 false true true).2 1200 rfl (by decide)).1⟩

/-- Counterexample to C5 as stated: when `encryptConfigFiles` fails but the
recovery decrypt succeeds, `ChangePassword` returns an error yet leaves the
vault unlocked (in the rolled-back old state) — it neither succeeds fully
nor transitions to the locked state. -/
theorem changePassword_rollback_keeps_unlocked :
    (changePassword goodVault ⟨true, false, true, true, true, true, true, true⟩).1
        ≠ CPResult.ok ∧
    (changePassword goodVault
        ⟨true, false, true, true, true, true, true, true⟩).2.unlocked = true := by
  decide

/-- **C5 (amended).** From the well-formed unlocked state, `ChangePassword`
either succeeds fully (files re-encrypted then re-decrypted under the new
key, new hash stored, new key held, vault unlocked, database reopened), or
fails after rolling back, leaving the vault unlocked in the consistent
all-old state (old hash, plaintext files, old key held), or fails leaving
the vault locked with the in-memory key zeroed.  In particular no failure
path leaves the vault unlocked with files or stored hash in a mixed
old/new state. -/
theorem changePassword_atomic (preOk encOk decRec1Ok saveOk decRec2Ok save2Ok decFinOk initOk : Bool) :
    ((changePassword goodVault
        ⟨preOk, encOk, decRec1Ok, saveOk, decRec2Ok, save2Ok, decFinOk, initOk⟩).1 = CPResult.ok →
      (changePassword goodVault
        ⟨preOk, encOk, decRec1Ok, saveOk, decRec2Ok, save2Ok, decFinOk, initOk⟩).2 =
        ⟨true, .newK, .plaintext, some .newK, true⟩) ∧
    ((changePassword goodVault
        ⟨preOk, encOk, decRec1Ok, saveOk, decRec2Ok, save2Ok, decFinOk, initOk⟩).1 ≠ CPResult.ok →
      ((changePassword goodVault
          ⟨preOk, encOk, decRec1Ok, saveOk, decRec2Ok, save2Ok, decFinOk, initOk⟩).2.unlocked = false ∧
       (changePassword goodVault
          ⟨preOk, encOk, decRec1Ok, saveOk, decRec2Ok, save2Ok, decFinOk, initOk⟩).2.memKey = none) ∨
      ((changePassword goodVault
          ⟨preOk, encOk, decRec1Ok, saveOk, decRec2Ok, save2Ok, decFinOk, initOk⟩).2.unlocked = true ∧
       (changePassword goodVault
          ⟨preOk, encOk, decRec1Ok, saveOk, decRec2Ok, save2Ok, decFinOk, initOk⟩).2.files = .plaintext ∧
       (changePassword goodVault
          ⟨preOk, encOk, decRec1Ok, saveOk, decRec2Ok, save2Ok, decFinOk, initOk⟩).2.storedHash = .oldK ∧
       (changePassword goodVault
          ⟨preOk, encOk, decRec1Ok, saveOk, decRec2Ok, save2Ok, decFinOk, initOk⟩).2.memKey = some .oldK)) := by
  rcases preOk with _ | _ <;> rcases encOk with _ | _ <;> rcases decRec1Ok with _ | _ <;>
    rcases saveOk with _ | _ <;> rcases decRec2Ok with _ | _ <;> rcases save2Ok with _ | _ <;>
    rcases decFinOk with _ | _ <;> rcases initOk with _ | _ <;> decide

/-- Witness for C5 (amended): with all steps succeeding the password change
succeeds fully; with a failed save and successful rollback the vault stays
unlocked in the all-old state. -/
theorem changePassword_atomic_witness :
    ((changePassword goodVault ⟨true, true, true, true, true, true, true, true⟩).2 =
        ⟨true, .newK, .plaintext, some .newK, true⟩) ∧
    (((changePassword goodVault ⟨true, true, true, false, true, true, true, true⟩).2.unlocked = false ∧
        (changePassword goodVault ⟨true, true, true, false, true, true, true, true⟩).2.memKey = none) ∨
     ((changePassword goodVault ⟨true, true, true, false, true, true, true, true⟩).2.unlocked = true ∧
        (changePassword goodVault ⟨true, true, true, false, true, true, true, true⟩).2.files = .plaintext ∧
        (changePassword goodVault ⟨true, true, true, false, true, true, true, true⟩).2.storedHash = .oldK ∧
        (changePassword goodVault ⟨true, true, true, false, true, true, true, true⟩).2.memKey = some .oldK)) :=
  ⟨(changePassword_atomic true true true true true true true true).1 (by decide),
   (changePassword_atomic true true true false true true true true).2 (by decide)⟩

/-- The derive-counts fold computes the filtered lengths. -/
theorem deriveCounts_foldl (ts : List FileTransferInfo) (e c : Int) :
    ts.foldl
      (fun acc t =>
        if t.status = "failed" then (acc.1 + 1, acc.2)
        else if t.status = "checked" ∨ t.status = "checking" then (acc.1, acc.2 + 1)
        else acc)
      (e, c)
    = (e + (ts.filter (fun t => decide (t.status = "failed"))).length,
       c + (ts.filter (fun t =>
              decide (t.status = "checked" ∨ t.status = "checking"))).length) := by
  induction ts generalizing e c with
  | nil => simp
  | cons a rest ih =>
    by_cases hf : a.status = "failed"
    · have hc : ¬ (a.status = "checked" ∨ a.status = "checking") := by
        rw [hf]; rintro (h | h) <;> simp at h
      simp [hf, hc, ih]
      omega
    · by_cases hc : a.status = "checked" ∨ a.status = "checking"
      · simp [hf, hc, ih]
        omega
      · simp [hf, hc, ih]

/-- Counterexample to C7 as stated: a snapshot with an empty transfer list
but a non-zero raw error counter yields a status whose `errors` field (3)
differs from the number of failed entries in its transfer list (0). -/
theorem composeStatus_counts_mismatch :
    (composeStatus ⟨0, 0, 0, 0, 3, 0, 0, 0, 0, [], [], []⟩).errors ≠
      (((composeStatus ⟨0, 0, 0, 0, 3, 0, 0, 0, 0, [], [], []⟩).transfers.filter
          (fun t => decide (t.status = "failed"))).length : Int) := by
  decide

/-- **C7 (amended).** For every status composed by `createStatusFromStats`
whose transfer list is non-empty, the `errors` field equals the number of
entries with status `failed` and the `checks` field equals the number of
entries with status `checked` or `checking`; with an empty transfer list
the raw rclone counters are reported unchanged. -/
theorem composeStatus_counts (snap : RemoteSnapshot)
    (h : composeTransfers snap ≠ []) :
    (composeStatus snap).errors
        = (((composeStatus snap).transfers.filter
            (fun t => decide (t.status = "failed"))).length : Int) ∧
    (composeStatus snap).checks
        = (((composeStatus snap).transfers.filter
            (fun t => decide (t.status = "checked" ∨ t.status = "checking"))).length : Int) := by
  have hlen : 0 < (composeTransfers snap).length := List.length_pos.mpr h
  rw [composeStatus]
  simp only [if_pos hlen]
  rw [deriveCounts, deriveCounts_foldl]
  simp

/-- A snapshot with one in-progress check and one failed transfer. -/
def snapWithItems : RemoteSnapshot :=
  ⟨2, 100, 0, 0, 7, 9, 2, 0, 0, [], ["a.txt"], [⟨"b.txt", 10, 4, true, "io error", false⟩]⟩

/-- Witness for C7 (amended): with one failed entry and one checking entry
the derived counts are 1 and 1. -/
theorem composeStatus_counts_witness :
    composeTransfers snapWithItems ≠ [] ∧
    (composeStatus snapWithItems).errors = 1 ∧
    (composeStatus snapWithItems).checks = 1 := by
  refine ⟨by decide, ?_, ?_⟩
  · rw [(composeStatus_counts snapWithItems (by decide)).1]
    decide
  · rw [(composeStatus_counts snapWithItems (by decide)).2]
    decide

/-- Counterexample to C8 as stated: when no residual log lines remain at
teardown, the cleanup emits no final progress sample at all. -/
theorem progressTeardown_no_final_sample :
    progressTeardown [] true = [] := by
  decide

/-- **C8 (amended).** The progress teardown emits exactly one final sample —
carrying the residual log lines, capped to the last 50 — when residual
lines exist and the channel has room; it emits nothing when no residual
lines remain or the channel is full; and it never closes the caller-owned
output channel. -/
theorem progressTeardown_final (logs : List String) (room : Bool) :
    (logs ≠ [] → room = true →
       progressTeardown logs room = [.send (capLogs logs)]) ∧
    (logs = [] → progressTeardown logs room = []) ∧
    (room = false → progressTeardown logs room = []) ∧
    ChanAction.close ∉ progressTeardown logs room := by
  refine ⟨?_, ?_, ?_, ?_⟩
  · intro hne hroom
    subst hroom
    rw [progressTeardown, if_pos (List.length_pos.mpr hne)]
    simp
  · rintro rfl
    rw [progressTeardown]
    simp
  · rintro rfl
    rw [progressTeardown]
    split <;> simp
  · rw [progressTeardown]
    split
    · split <;> simp
    · simp

/-- Witness for C8 (amended): one residual line is emitted as a single
final sample; an empty residue emits nothing. -/
theorem progressTeardown_final_witness :
    progressTeardown ["residual line"] true = [.send ["residual line"]] ∧
    progressTeardown [] false = [] :=
  ⟨by
    have h := (progressTeardown_final ["residual line"] true).1 (by decide) rfl
    simpa [capLogs] using h,
   (progressTeardown_final [] false).2.1 rfl⟩

/-- **C6.** For every AEAD `(sealFn, opn)` satisfying the GCM contract at
the given inputs — round-trip, authentication failure on every single-bit
perturbation of the ciphertext, and failure under a different key — the
produced ciphertext is the 12-byte nonce followed by the sealed payload,
`DecryptData` of `EncryptData` returns the original data, flipping any
single bit of the ciphertext makes decryption return an authentication
error, and decrypting under the other key returns an authentication
error. -/
theorem encrypt_decrypt_roundtrip
    (sealFn : List Nat → List Nat → List Nat → List Nat)
    (opn : List Nat → List Nat → List Nat → Option (List Nat))
    (key key2 nonce data : List Nat)
    (hkey : key.length = 32) (hkey2 : key2.length = 32) (hnonce : nonce.length = 12)
    (hround : opn key nonce (sealFn key nonce data) = some data)
    (hflip : ∀ i, i < 8 * (nonce ++ sealFn key nonce data).length →
       opn key ((flipBit i (nonce ++ sealFn key nonce data)).take gcmNonceSize)
               ((flipBit i (nonce ++ sealFn key nonce data)).drop gcmNonceSize) = none)
    (hwrong : opn key2 nonce (sealFn key nonce data) = none) :
    EncryptData sealFn nonce key data = .ok (nonce ++ sealFn key nonce data) ∧
    (nonce ++ sealFn key nonce data).take gcmNonceSize = nonce ∧
    DecryptData opn key (nonce ++ sealFn key nonce data) = .ok data ∧
    (∀ i, i < 8 * (nonce ++ sealFn key nonce data).length →
       DecryptData opn key (flipBit i (nonce ++ sealFn key nonce data))
         = .error "cipher: message authentication failed") ∧
    DecryptData opn key2 (nonce ++ sealFn key nonce data)
      = .error "cipher: message authentication failed" := by
  have hk : aesKeyLenOk key = true := by
    simp [aesKeyLenOk, hkey]
  have hk2 : aesKeyLenOk key2 = true := by
    simp [aesKeyLenOk, hkey2]
  have htake : (nonce ++ sealFn key nonce data).take gcmNonceSize = nonce :=
    List.take_left' hnonce
  have hdrop : (nonce ++ sealFn key nonce data).drop gcmNonceSize = sealFn key nonce data :=
    List.drop_left' hnonce
  have hlen : ¬ (nonce ++ sealFn key nonce data).length < gcmNonceSize := by
    rw [List.length_append, hnonce, gcmNonceSize]
    omega
  refine ⟨?_, htake, ?_, ?_, ?_⟩
  · rw [EncryptData, if_neg (by rw [hk]; simp)]
  · rw [DecryptData, if_neg (by rw [hk]; simp), if_neg hlen, htake, hdrop, hround]
  · intro i hi
    have hflen : ¬ (flipBit i (nonce ++ sealFn key nonce data)).length < gcmNonceSize := by
      rw [flipBit, List.length_set]
      exact hlen
    rw [DecryptData, if_neg (by rw [hk]; simp), if_neg hflen, hflip i hi]
  · rw [DecryptData, if_neg (by rw [hk2]; simp), if_neg hlen, htake, hdrop, hwrong]

/-- Witness for C6: the model AEAD at concrete inputs — a 32-byte key of
7s, a second key of 9s, a 12-byte nonce of 1s and the data `[5, 6, 7]` —
satisfies the contract, round-trips, and rejects every one-bit flip and
the wrong key. -/
theorem encrypt_decrypt_roundtrip_witness :
    (openModel (List.replicate 32 7) (List.replicate 12 1)
        (sealModel (List.replicate 32 7) (List.replicate 12 1) [5, 6, 7]) = some [5, 6, 7]) ∧
    DecryptData openModel (List.replicate 32 7)
        (List.replicate 12 1 ++ sealModel (List.replicate 32 7) (List.replicate 12 1) [5, 6, 7])
      = .ok [5, 6, 7] ∧
    DecryptData openModel (List.replicate 32 7)
        (flipBit 100 (List.replicate 12 1 ++
          sealModel (List.replicate 32 7) (List.replicate 12 1) [5, 6, 7]))
      = .error "cipher: message authentication failed" ∧
    DecryptData openModel (List.replicate 32 9)
        (List.replicate 12 1 ++ sealModel (List.replicate 32 7) (List.replicate 12 1) [5, 6, 7])
      = .error "cipher: message authentication failed" := by
  have h := encrypt_decrypt_roundtrip sealModel openModel
    (List.replicate 32 7) (List.replicate 32 9) (List.replicate 12 1) [5, 6, 7]
    (by decide) (by decide) (by decide) (by decide) (by decide) (by decide)
  exact ⟨by decide, h.2.2.1, h.2.2.2.1 100 (by decide), h.2.2.2.2⟩

/-- **C10.** For every valid AES key and every input byte string shorter
than the 12-byte nonce, `DecryptData` and `decryptFile` return the
"ciphertext too short" error — the nonce is split off only after the
explicit length check, for any AEAD open function. -/
theorem decrypt_short_ciphertext
    (opn : List Nat → List Nat → List Nat → Option (List Nat))
    (key ct : List Nat)
    (hkey : aesKeyLenOk key = true) (hct : ct.length < gcmNonceSize) :
    DecryptData opn key ct = .error "ciphertext too short" ∧
    decryptFileContent opn key ct = .error "ciphertext too short" := by
  constructor
  · rw [DecryptData, if_neg (by rw [hkey]; simp), if_pos hct]
  · rw [decryptFileContent, if_neg (by rw [hkey]; simp), if_pos hct]

/-- Witness for C10: a 32-byte zero key with an empty and a 5-byte
ciphertext both produce the "ciphertext too short" error. -/
theorem decrypt_short_ciphertext_witness :
    aesKeyLenOk (List.replicate 32 0) = true ∧
    DecryptData openModel (List.replicate 32 0) [] = .error "ciphertext too short" ∧
    decryptFileContent openModel (List.replicate 32 0) [1, 2, 3, 4, 5]
      = .error "ciphertext too short" :=
  ⟨by decide,
   (decrypt_short_ciphertext openModel (List.replicate 32 0) [] (by decide) (by decide)).1,
   (decrypt_short_ciphertext openModel (List.replicate 32 0) [1, 2, 3, 4, 5]
      (by decide) (by decide)).2⟩

end NgDrive
